import Mathlib

/-!
Shallow embedding of the fetch-merge-broadcast core of `app.py`
(Bolt taxi tracker: multi-location concurrent fetch, merge/dedup,
broadcast loop), together with theorems settling the specification
claims about it.

Python JSON values are modelled by `PyVal`; Python `dict.get`,
`dict.items`, `str.strip` are modelled by fallible operations in
`Except PyErr`, since calling them on a value of the wrong type raises
`AttributeError` in Python.
-/

/-- Python/JSON values as decoded by `response.json()`.  Python's `int`
and `float` are collapsed into one rational-number constructor: the
program only ever tests numbers for truthiness and equality, which
agree on the two types. -/
inductive PyVal where
  | none
  | bool (b : Bool)
  | num (q : ℚ)
  | str (s : String)
  | list (xs : List PyVal)
  | dict (kvs : List (String × PyVal))
  deriving Repr

/-- Python exceptions the modelled fragment can raise: attribute access
(`.get`, `.items`, `.strip`) on a value of the wrong type, and the
`TypeError` raised by hashing an unhashable value (set membership of a
list- or dict-valued vehicle id). -/
inductive PyErr where
  | attributeError (attr : String)
  | typeError (msg : String)
  deriving Repr, DecidableEq

mutual

/-- Structural equality on `PyVal`, modelling Python `==` (and set
membership) on decoded JSON values. -/
def PyVal.beq : PyVal → PyVal → Bool
  | .none, .none => true
  | .bool a, .bool b => a == b
  | .num a, .num b => a == b
  | .str a, .str b => a == b
  | .list xs, .list ys => PyVal.beqList xs ys
  | .dict xs, .dict ys => PyVal.beqKvs xs ys
  | _, _ => false

/-- Elementwise `PyVal.beq` on lists. -/
def PyVal.beqList : List PyVal → List PyVal → Bool
  | [], [] => true
  | x :: xs, y :: ys => PyVal.beq x y && PyVal.beqList xs ys
  | _, _ => false

/-- Elementwise `PyVal.beq` on key-value lists. -/
def PyVal.beqKvs : List (String × PyVal) → List (String × PyVal) → Bool
  | [], [] => true
  | (k, x) :: xs, (l, y) :: ys => k == l && PyVal.beq x y && PyVal.beqKvs xs ys
  | _, _ => false

end

/-- Python truthiness (`if not data`, `if vehicle_info["lat"]`): `None`,
`False`, zero, empty string/list/dict are falsy. -/
def truthy : PyVal → Bool
  | .none => false
  | .bool b => b
  | .num q => !decide (q = 0)
  | .str s => !s.isEmpty
  | .list xs => !xs.isEmpty
  | .dict kvs => !kvs.isEmpty

/-- First-match lookup in a key-value list, modelling Python dict key
lookup (keys of a Python dict are unique, so first match is the match). -/
def lookupStr : List (String × PyVal) → String → Option PyVal
  | [], _ => Option.none
  | (k, v) :: rest, key => if k == key then some v else lookupStr rest key

/-- Python `v.get(key, dflt)`: defaulting lookup on a dict, and an
`AttributeError` on any non-dict value. -/
def pyGet : PyVal → String → PyVal → Except PyErr PyVal
  | .dict kvs, key, dflt => .ok ((lookupStr kvs key).getD dflt)
  | _, _, _ => .error (.attributeError "get")

/-- Python `v.items()`: the key-value pairs of a dict, and an
`AttributeError` on any non-dict value. -/
def pyItems : PyVal → Except PyErr (List (String × PyVal))
  | .dict kvs => .ok kvs
  | _ => .error (.attributeError "items")

/-- Whitespace test used by Python `str.strip()` (restricted to the
ASCII whitespace that can occur in the modelled payload strings). -/
def isSpaceChar (c : Char) : Bool :=
  c == ' ' || c == '\t' || c == '\n' || c == '\r'

/-- Drop leading whitespace characters. -/
def dropLeadingSpace : List Char → List Char
  | [] => []
  | c :: cs => if isSpaceChar c then dropLeadingSpace cs else c :: cs

/-- Python `s.strip()` on a string: drop trailing then leading
whitespace. -/
def pyStripStr (s : String) : String :=
  ⟨dropLeadingSpace (dropLeadingSpace s.data.reverse).reverse⟩

/-- Python `v.strip()`: whitespace trimming on a string, and an
`AttributeError` on any non-string value. -/
def pyStrip : PyVal → Except PyErr String
  | .str s => .ok (pyStripStr s)
  | _ => .error (.attributeError "strip")

/-- Hashability of a decoded JSON value: Python lists and dicts are
unhashable; `None`, booleans, numbers and strings are hashable. -/
def pyHashable : PyVal → Bool
  | .list _ => false
  | .dict _ => false
  | _ => true

/-- Equality scan behind Python set membership, over the seen-set
represented as the list of its elements in insertion order. -/
def pyMemScan (x : PyVal) (ids : List PyVal) : Bool :=
  ids.any fun y => PyVal.beq x y

/-- Python set membership `x in s`: `hash(x)` is computed first, so
the test raises `TypeError` when `x` is unhashable (a list or dict,
e.g. a list-valued `id` field), and is otherwise an equality scan.
The elements already in the set are hashable by construction. -/
def pyMem (x : PyVal) (ids : List PyVal) : Except PyErr Bool :=
  if pyHashable x then .ok (pyMemScan x ids)
  else .error (.typeError "unhashable type")

/-- One polling vantage point, an entry of the `LOCATIONS` list of
`app.py`. -/
structure Location where
  name : String
  lat : ℚ
  lng : ℚ
  deriving Repr, DecidableEq

/-- The `LOCATIONS` constant of `app.py`: the 14 configured vantage
points around Chiang Mai. -/
def LOCATIONS : List Location :=
  [⟨"City Center", 18.7883, 98.9853⟩,
   ⟨"Old City", 18.7912, 98.9853⟩,
   ⟨"Tha Phae Gate", 18.7868, 98.9931⟩,
   ⟨"Nimman", 18.8002, 98.9679⟩,
   ⟨"CMU Area", 18.8063, 98.9511⟩,
   ⟨"Maya Mall", 18.8025, 98.9667⟩,
   ⟨"Airport", 18.7667, 98.9625⟩,
   ⟨"San Kamphaeng", 18.7500, 99.1167⟩,
   ⟨"Hang Dong", 18.6833, 98.9167⟩,
   ⟨"Doi Saket", 18.9167, 99.1667⟩,
   ⟨"Mae Rim", 18.9167, 98.8833⟩,
   ⟨"Doi Suthep", 18.8047, 98.9217⟩,
   ⟨"San Sai", 18.8667, 99.0333⟩,
   ⟨"Saraphi", 18.7167, 99.0167⟩]

/-- Result dict built by `fetch_single_location`: it always carries the
`location` name, the decoded `data` (Python `None` on failure), the
`success` flag, and an `error` string exactly when the fetch failed. -/
structure FetchResultR where
  location : String
  data : PyVal
  success : Bool
  error : Option String
  deriving Repr

/-- Outcome of one outbound HTTP attempt, the oracle under which
`fetch_single_location` is modelled: either a response with a status
code and (when the body is decodable JSON) a decoded body, or an
exception raised inside the `try` block (transport failure, timeout,
request-building error). `body = Option.none` models a 200 body on
which `response.json()` raises. -/
inductive FetchOutcome where
  | response (status : Nat) (body : Option PyVal)
  | exn (msg : String)
  deriving Repr

/-- Embedding of `fetch_single_location` (app.py lines 119-179): the
whole `try` body is summarised by the `FetchOutcome` oracle; the
classification into the returned result dict is the code of lines
172-179 plus the `except` handler. -/
def fetch_single_location (location : Location) (outcome : FetchOutcome) :
    FetchResultR :=
  match outcome with
  | .exn msg => ⟨location.name, .none, false, some msg⟩
  | .response status body =>
      if status == 200 then
        match body with
        | some decoded => ⟨location.name, decoded, true, Option.none⟩
        | Option.none =>
            ⟨location.name, .none, false, some "JSONDecodeError"⟩
      else
        ⟨location.name, .none, false, some ("Status " ++ toString status)⟩

/-- Embedding of `fetch_all_locations` (app.py lines 181-188).  The
`ThreadPoolExecutor` submits one job per location and `as_completed`
yields every future exactly once, in a completion order that is some
permutation of the submission order; `completionOrder` names that
permuted list of locations and `outcomes` gives each location's fetch
outcome.  `future.result()` returns the worker's return value, and
`fetch_single_location` catches every `Exception`, so each job
contributes exactly one result dict. -/
def fetch_all_locations (completionOrder : List Location)
    (outcomes : Location → FetchOutcome) : List FetchResultR :=
  completionOrder.map fun loc => fetch_single_location loc (outcomes loc)

/-- The `vehicle_info` dict literal built by `process_all_responses`
(app.py lines 220-229), field for field and in source order.  Fields
whose value comes from an unconstrained `.get` keep type `PyVal`;
`icon_url` is a `String` because the code calls `.strip()` on it. -/
structure VehicleInfo where
  id : PyVal
  lat : PyVal
  lng : PyVal
  bearing : PyVal
  icon_url : String
  category_name : PyVal
  category_id : String
  source_location : String
  deriving Repr

/-- The mutable locals of `process_all_responses` (app.py lines
191-194). -/
structure MergeState where
  all_vehicles : List VehicleInfo
  vehicle_ids : List PyVal
  success_count : Nat
  fail_count : Nat
  deriving Repr

/-- Body of the inner `for car in cars` loop of `process_all_responses`
(app.py lines 214-231): dedup check against the batch-wide seen set
(the id is added to the set before the validity filter runs), icon and
category resolution, and the lat/lng truthiness filter. -/
def processCar (source_location : String) (category_id : String)
    (icons categories : PyVal) (st : MergeState) (car : PyVal) :
    Except PyErr MergeState := do
  let vehicle_id ← pyGet car "id" PyVal.none
  let seen ← pyMem vehicle_id st.vehicle_ids
  if seen then
    return st
  else
    let ids := st.vehicle_ids ++ [vehicle_id]
    let iconEntry ← pyGet icons category_id (.dict [])
    let iconRaw ← pyGet iconEntry "icon_url" (.str "")
    let icon_url ← pyStrip iconRaw
    let lat ← pyGet car "lat" PyVal.none
    let lng ← pyGet car "lng" PyVal.none
    let bearing ← pyGet car "bearing" (.num 0)
    let catEntry ← pyGet categories category_id (.dict [])
    let category_name ← pyGet catEntry "name" (.str "Unknown")
    let vehicle_info : VehicleInfo :=
      ⟨vehicle_id, lat, lng, bearing, icon_url, category_name,
       category_id, source_location⟩
    if truthy vehicle_info.lat && truthy vehicle_info.lng then
      return { st with vehicle_ids := ids,
                       all_vehicles := st.all_vehicles ++ [vehicle_info] }
    else
      return { st with vehicle_ids := ids }

/-- Payload drilling of `process_all_responses` for one successful
result (app.py lines 202-231): the part after `success_count += 1`.
Falsy data is skipped; otherwise nested `.get` chains reach the taxi
vehicle table, icon table and category table, and the two nested `for`
loops run `processCar` (entries whose value is not a list are skipped
by the `isinstance` check). -/
def extractVehicles (location : String) (data : PyVal) (st : MergeState) :
    Except PyErr MergeState := do
  if !truthy data then
    return st
  else
    let d ← pyGet data "data" (.dict [])
    let vehicles ← pyGet d "vehicles" (.dict [])
    let taxi_vehicles ← pyGet vehicles "taxi" (.dict [])
    let iconsTop ← pyGet vehicles "icons" (.dict [])
    let icons ← pyGet iconsTop "taxi" (.dict [])
    let catTop ← pyGet vehicles "category_details" (.dict [])
    let categories ← pyGet catTop "taxi" (.dict [])
    let entries ← pyItems taxi_vehicles
    entries.foldlM
      (fun st entry =>
        match entry.2 with
        | .list cars => cars.foldlM (processCar location entry.1 icons categories) st
        | _ => pure st)
      st

/-- Body of the outer `for response in responses` loop of
`process_all_responses` (app.py lines 196-231): failed results bump
`fail_count`, successful ones bump `success_count` and then extract. -/
def processResponse (st : MergeState) (response : FetchResultR) :
    Except PyErr MergeState :=
  if !response.success then
    pure { st with fail_count := st.fail_count + 1 }
  else
    extractVehicles response.location response.data
      { st with success_count := st.success_count + 1 }

/-- Full state left by `process_all_responses` (app.py lines 190-235)
on a batch, starting from the empty accumulators. -/
def mergeRun (responses : List FetchResultR) : Except PyErr MergeState :=
  responses.foldlM processResponse ⟨[], [], 0, 0⟩

/-- Embedding of `process_all_responses`: the returned `all_vehicles`
list (the counters are only printed). -/
def process_all_responses (responses : List FetchResultR) :
    Except PyErr (List VehicleInfo) :=
  (mergeRun responses).map fun st => st.all_vehicles

/-- Dict rendering of a `vehicle_info`, with the keys in the order of
the source dict literal (app.py lines 220-229). -/
def VehicleInfo.toDict (v : VehicleInfo) : PyVal :=
  .dict [("id", v.id), ("lat", v.lat), ("lng", v.lng),
         ("bearing", v.bearing), ("icon_url", .str v.icon_url),
         ("category_name", v.category_name),
         ("category_id", .str v.category_id),
         ("source_location", .str v.source_location)]

/-- Keys of a dict value, in order. -/
def pyKeys : PyVal → Option (List String)
  | .dict kvs => some (kvs.map fun kv => kv.1)
  | _ => Option.none

/-- The key list shared by real and fake vehicle records. -/
def vehicleKeys : List String :=
  ["id", "lat", "lng", "bearing", "icon_url", "category_name",
   "category_id", "source_location"]

/-- Icon URL constant of `generate_fake_data_multi_location`. -/
def FAKE_ICON_URL : String :=
  "https://raw.githubusercontent.com/pointhi/leaflet-color-markers/master/img/marker-icon-2x-blue.png"

/-- Random draws consumed for one fake car by
`generate_fake_data_multi_location`: `random.uniform(-0.015, 0.015)`
twice, `random.randint(0, 359)`, and `random.choice` over the three
category names.  The generator is modelled relative to this oracle. -/
structure FakeCarRand where
  lat_offset : ℚ
  lng_offset : ℚ
  bearing : ℕ
  category_name : String
  deriving Repr

/-- The fake vehicle dict literal (app.py lines 249-258), key for key
in source order. -/
def fakeVehicle (idx i : ℕ) (location : Location) (r : FakeCarRand) : PyVal :=
  .dict [("id", .str ("FAKE_" ++ toString idx ++ "_" ++ toString i)),
         ("lat", .num (location.lat + r.lat_offset)),
         ("lng", .num (location.lng + r.lng_offset)),
         ("bearing", .num r.bearing),
         ("icon_url", .str FAKE_ICON_URL),
         ("category_name", .str r.category_name),
         ("category_id", .str "economy"),
         ("source_location", .str location.name)]

/-- Embedding of `generate_fake_data_multi_location` (app.py lines
241-260): for each configured location (with its `enumerate` index) it
emits one fake vehicle per random draw; `rand idx` lists the draws for
location `idx`, its length standing for `random.randint(5, 15)`. -/
def generate_fake_data_multi_location (locs : List Location)
    (rand : ℕ → List FakeCarRand) : List PyVal :=
  locs.enum.flatMap fun p =>
    (rand p.1).enum.map fun q => fakeVehicle p.1 q.1 p.2 q.2

/-- The `vehicles_update` payload built by `data_fetch_loop` for
`socketio.emit` (app.py lines 284-291), field for field. -/
structure Snapshot where
  vehicles : List PyVal
  count : Nat
  locations_count : Nat
  success_locations : List String
  failed_locations : List String
  fetch_time : ℚ
  deriving Repr

/-- Assembly of the `vehicles_update` payload from the cycle's vehicle
list and responses (app.py lines 284-291). -/
def emitPayload (vehicles : List PyVal) (responses : List FetchResultR)
    (locs : List Location) (elapsed : ℚ) : Snapshot :=
  ⟨vehicles, vehicles.length, locs.length,
   (responses.filter fun r => r.success).map fun r => r.location,
   (responses.filter fun r => !r.success).map fun r => r.location,
   elapsed⟩

/-- The `TEST_MODE` constant of app.py line 85. -/
def TEST_MODE : Bool := false

/-- The `MAX_WORKERS` constant of app.py line 88 (the worker-pool
bound; the pool bound affects only timing, not which results are
produced, so it does not appear in the result-level model). -/
def MAX_WORKERS : Nat := 10

/-- The `FETCH_INTERVAL` constant of app.py line 91, in seconds. -/
def FETCH_INTERVAL : ℚ := 1

/-- Environment of one iteration of `data_fetch_loop`: the completion
order and per-location outcomes of this cycle's fetches, the random
draws consumed in test mode, the measured elapsed time, and whether
`socketio.emit` raises this cycle. -/
structure CycleInput where
  completionOrder : List Location
  outcomes : Location → FetchOutcome
  rand : ℕ → List FakeCarRand
  elapsed : ℚ
  emitRaises : Bool

/-- Observable effect of one iteration of `data_fetch_loop`: the
snapshot pushed to subscribers (none when the cycle raised before the
emit completed), whether the `except` handler logged an error, and how
long the iteration then sleeps. -/
structure CycleResult where
  emitted : Option Snapshot
  errorLogged : Bool
  slept : ℚ
  deriving Repr

/-- One iteration of the `while True` loop of `data_fetch_loop`
(app.py lines 268-297).  The `try` body either completes (fetch or
fake-data generation, merge, emit, then `time.sleep(FETCH_INTERVAL)`)
or raises — a merge `AttributeError` or an emit failure — in which
case the `except` handler logs the error and sleeps the same
`FETCH_INTERVAL`.  In test mode `responses` is the empty list, so the
emitted success/failed location lists are built from `[]`. -/
def runCycle (test_mode : Bool) (locs : List Location) (inp : CycleInput) :
    CycleResult :=
  if test_mode then
    let vehicles := generate_fake_data_multi_location locs inp.rand
    if inp.emitRaises then ⟨Option.none, true, FETCH_INTERVAL⟩
    else ⟨some (emitPayload vehicles [] locs inp.elapsed), false, FETCH_INTERVAL⟩
  else
    let responses := fetch_all_locations inp.completionOrder inp.outcomes
    match process_all_responses responses with
    | .error _ => ⟨Option.none, true, FETCH_INTERVAL⟩
    | .ok vehicles =>
        if inp.emitRaises then ⟨Option.none, true, FETCH_INTERVAL⟩
        else
          ⟨some (emitPayload (vehicles.map VehicleInfo.toDict) responses
                  locs inp.elapsed),
           false, FETCH_INTERVAL⟩

/-- Trace of `data_fetch_loop` (app.py lines 266-297) over a sequence
of cycle environments: the loop body is single-threaded, so cycles run
strictly one after another and the trace is the list of per-cycle
results in order. -/
def data_fetch_loop (test_mode : Bool) (locs : List Location)
    (inputs : List CycleInput) : List CycleResult :=
  inputs.map (runCycle test_mode locs)

/-- Dict test. -/
def isDict : PyVal → Bool
  | .dict _ => true
  | _ => false

/-- Defaulting lookup on a key-value list (`kvs.get(k, d)` with the
dict already known). -/
def dGetD (kvs : List (String × PyVal)) (k : String) (d : PyVal) : PyVal :=
  (lookupStr kvs k).getD d

/-- Shape of one icon-table entry that `processCar` can consume without
raising: a dict whose `icon_url` value, when present, is a string (the
code calls `.strip()` on it). -/
def iconEntryOk : PyVal → Bool
  | .dict e =>
      match lookupStr e "icon_url" with
      | some (.str _) => true
      | some _ => false
      | Option.none => true
  | _ => false

/-- Shape of an icon table (`vehicles.icons.taxi`) that the merge can
consume without raising. -/
def safeIconTable : PyVal → Bool
  | .dict ks => ks.all fun kv => iconEntryOk kv.2
  | _ => false

/-- Shape of a category table (`vehicles.category_details.taxi`) that
the merge can consume without raising: every value is a dict. -/
def safeCatTable : PyVal → Bool
  | .dict ks => ks.all fun kv => isDict kv.2
  | _ => false

/-- Shape of one raw vehicle record that `processCar` can consume
without raising: a dict whose `id` value (defaulted to `None` by
`car.get("id")`) is hashable — an unhashable (list or dict) id makes
the seen-set membership test raise `TypeError`. -/
def safeCar : PyVal → Bool
  | .dict ckvs => pyHashable (dGetD ckvs "id" PyVal.none)
  | _ => false

/-- Shape of a vehicle table (`vehicles.taxi`) that the merge can
consume without raising: a dict whose list-valued entries hold only
dict records with hashable ids (non-list entries are skipped by the
`isinstance` check). -/
def safeTaxiTable : PyVal → Bool
  | .dict ks =>
      ks.all fun kv =>
        match kv.2 with
        | .list cars => cars.all safeCar
        | _ => true
  | _ => false

/-- Shape check for the `icons` value of a payload: a dict whose
`taxi` entry (defaulted to `{}`) is a safe icon table. -/
def safeIconsVal : PyVal → Bool
  | .dict ikvs => safeIconTable (dGetD ikvs "taxi" (.dict []))
  | _ => false

/-- Shape check for the `category_details` value of a payload: a dict
whose `taxi` entry (defaulted to `{}`) is a safe category table. -/
def safeCatsVal : PyVal → Bool
  | .dict ckvs => safeCatTable (dGetD ckvs "taxi" (.dict []))
  | _ => false

/-- Shape check for the `vehicles` value of a payload: a dict whose
`taxi`, `icons` and `category_details` entries are all safe. -/
def safeVehiclesVal : PyVal → Bool
  | .dict vkvs =>
      safeTaxiTable (dGetD vkvs "taxi" (.dict [])) &&
      safeIconsVal (dGetD vkvs "icons" (.dict [])) &&
      safeCatsVal (dGetD vkvs "category_details" (.dict []))
  | _ => false

/-- Shape check for the `data` value of a payload: a dict whose
`vehicles` entry (defaulted to `{}`) is safe. -/
def safeDataVal : PyVal → Bool
  | .dict dkvs => safeVehiclesVal (dGetD dkvs "vehicles" (.dict []))
  | _ => false

/-- Shape check for a truthy payload: a dict whose `data` entry
(defaulted to `{}`) is safe. -/
def safePayloadCore : PyVal → Bool
  | .dict kvs => safeDataVal (dGetD kvs "data" (.dict []))
  | _ => false

/-- Payload shapes on which `process_all_responses` is exception-free:
either falsy (skipped outright), or a dict whose drilled positions
(`data`, `data.vehicles`, and the three taxi tables under it) are
dicts of the above shapes.  Missing keys are fine — each `.get`
defaults them to `{}`. -/
def safePayload (data : PyVal) : Bool :=
  if truthy data then safePayloadCore data else true

/-- Copy a merge state with the two counters bumped by fixed offsets;
used to state that the per-vehicle processing never reads or writes
the counters. -/
def addCounts (dn dm : Nat) (s : MergeState) : MergeState :=
  ⟨s.all_vehicles, s.vehicle_ids, s.success_count + dn, s.fail_count + dm⟩

/-- Merge-output invariant: every output vehicle's id was recorded in
the seen set, no id occurs twice in the output, and every output
vehicle passed the lat/lng truthiness filter. -/
def MergeInv (st : MergeState) : Prop :=
  (∀ v ∈ st.all_vehicles, v.id ∈ st.vehicle_ids) ∧
  (st.all_vehicles.map fun v => v.id).Pairwise (· ≠ ·) ∧
  (∀ v ∈ st.all_vehicles, truthy v.lat = true ∧ truthy v.lng = true)

/-- Raw vehicle record with the given id and coordinates. -/
def mkCar (i : String) (la ln : ℚ) : PyVal :=
  .dict [("id", .str i), ("lat", .num la), ("lng", .num ln)]

/-- Successful payload carrying one category with the given records. -/
def mkPayload (cars : List PyVal) : PyVal :=
  .dict [("data", .dict [("vehicles", .dict [("taxi",
    .dict [("cat1", .list cars)])])])]

/-- The spec §8 scenario batch: location A returns v1 and v2, location
B returns v2 (different coordinates) and v3, location C times out. -/
def scenarioBatch : List FetchResultR :=
  [⟨"A", mkPayload [mkCar "v1" 18 98, mkCar "v2" 19 99], true, Option.none⟩,
   ⟨"B", mkPayload [mkCar "v2" 20 100, mkCar "v3" 21 101], true, Option.none⟩,
   ⟨"C", .none, false, some "timeout"⟩]

/-- A record with id `a` and zero (invalid) coordinates. -/
def poisonInvalidCar : PyVal := mkCar "a" 0 0

/-- A record with id `a` and valid coordinates. -/
def poisonValidCar : PyVal := mkCar "a" 5 6

/-- Batch in which id `a` occurs first with invalid zero coordinates
and then with valid coordinates, in the same successful payload. -/
def poisonBatch : List FetchResultR :=
  [⟨"A", mkPayload [poisonInvalidCar, poisonValidCar], true, Option.none⟩]

/-- A record with id `s` and a null latitude. -/
def nullLatCar : PyVal :=
  .dict [("id", .str "s"), ("lat", PyVal.none), ("lng", .num 6)]

/-- A sibling record that reuses id `s` with valid coordinates. -/
def sameIdSibling : PyVal := mkCar "s" 7 8

/-- Batch in which a null-latitude record precedes a valid-coordinate
sibling carrying the same id. -/
def siblingBatch : List FetchResultR :=
  [⟨"A", mkPayload [nullLatCar, sameIdSibling], true, Option.none⟩]

/-- Batch realising the spec §8 null-latitude scenario: one record with
`lat = null`, one well-formed sibling with a fresh id. -/
def nullLatBatch : List FetchResultR :=
  [⟨"A", mkPayload [nullLatCar, mkCar "y" 7 8], true, Option.none⟩]

/-- Successful batch whose payload nests a non-dict (a string) where
the merge drills with `.get`. -/
def badShapeBatch : List FetchResultR :=
  [⟨"A", .dict [("data", .str "oops")], true, Option.none⟩]

/-- Batch with one successful record whose id value is a list —
unhashable in Python, so the dedup membership test raises
`TypeError`. -/
def unhashableIdBatch : List FetchResultR :=
  [⟨"A", mkPayload
     [.dict [("id", .list [.num 1]), ("lat", .num 1), ("lng", .num 2)]],
    true, Option.none⟩]

/-- Batch pairing a malformed-but-shape-safe payload (its taxi table's
entry is a number, not a list) with a normal payload. -/
def degradeBatch : List FetchResultR :=
  [⟨"A", .dict [("data", .dict [("vehicles", .dict [("taxi",
      .dict [("cat1", .num 7)])])])], true, Option.none⟩,
   ⟨"B", mkPayload [mkCar "z" 3 4], true, Option.none⟩]

/-- Batch with one successful payload holding a single record that has
coordinates but no id field. -/
def noIdBatch : List FetchResultR :=
  [⟨"A", mkPayload [.dict [("lat", .num 5), ("lng", .num 6)]], true,
    Option.none⟩]

/-- Batch with two id-less records with valid, distinct coordinates in
one successful payload. -/
def noIdTwiceBatch : List FetchResultR :=
  [⟨"A", mkPayload
     [.dict [("lat", .num 5), ("lng", .num 6)],
      .dict [("lat", .num 7), ("lng", .num 8)]], true, Option.none⟩]

/-- Two concrete locations used in witnesses. -/
def locA : Location := ⟨"City Center", 18.7883, 98.9853⟩

/-- Second concrete location used in witnesses. -/
def locB : Location := ⟨"Airport", 18.7667, 98.9625⟩

/-- Concrete outcome assignment used in witnesses: `locA` times out,
everything else answers 200 with a scenario payload. -/
def witnessOutcomes (loc : Location) : FetchOutcome :=
  if loc.name == "City Center" then .exn "timeout"
  else .response 200 (some (mkPayload [mkCar "w" 2 3]))

/-- Concrete random oracle for test-mode witnesses: five identical
draws per location. -/
def witnessRand (_ : ℕ) : List FakeCarRand :=
  List.replicate 5 ⟨1/1000, -1/1000, 90, "Economy"⟩

/-- Concrete cycle environment used in loop witnesses. -/
def witnessCycleInput : CycleInput :=
  ⟨[locB, locA], witnessOutcomes, witnessRand, 1/2, false⟩

/-- Concrete cycle environment whose merge raises (its 200 payload
nests a string where the merge drills). -/
def errorCycleInput : CycleInput :=
  ⟨[locA], fun _ => .response 200 (some (.dict [("data", .str "oops")])),
   witnessRand, 1/2, false⟩

/-- Expected merge output for the §8 scenario batch: v1 and v2 with
location A coordinates (A is processed first), v3 from B. -/
def scenarioOutput : List VehicleInfo :=
  [⟨.str "v1", .num 18, .num 98, .num 0, "", .str "Unknown", "cat1", "A"⟩,
   ⟨.str "v2", .num 19, .num 99, .num 0, "", .str "Unknown", "cat1", "A"⟩,
   ⟨.str "v3", .num 21, .num 101, .num 0, "", .str "Unknown", "cat1", "B"⟩]

/-- Vehicle extracted from an id-less record: the id is Python `None`
(the default returned by `car.get("id")`). -/
def noIdVehicle : VehicleInfo :=
  ⟨PyVal.none, .num 5, .num 6, .num 0, "", .str "Unknown", "cat1", "A"⟩

/-- Snapshot emitted by a test-mode cycle at the concrete witness
environment. -/
def witnessTestSnapshot : Snapshot :=
  emitPayload (generate_fake_data_multi_location LOCATIONS witnessRand)
    [] LOCATIONS (1/2)

theorem exbind_ok {α β e : Type} (a : α) (f : α → Except e β) :
    (Except.ok a >>= f) = f a := rfl

theorem exbind_err {α β e : Type} (err : e) (f : α → Except e β) :
    ((Except.error err : Except e α) >>= f) = Except.error err := rfl

theorem expure {α e : Type} (a : α) :
    (pure a : Except e α) = Except.ok a := rfl

mutual

theorem PyVal.beq_refl : ∀ a : PyVal, PyVal.beq a a = true
  | .none => rfl
  | .bool b => by simp [PyVal.beq]
  | .num q => by simp [PyVal.beq]
  | .str s => by simp [PyVal.beq]
  | .list xs => by simp [PyVal.beq, PyVal.beqList_refl xs]
  | .dict kvs => by simp [PyVal.beq, PyVal.beqKvs_refl kvs]

theorem PyVal.beqList_refl : ∀ xs : List PyVal, PyVal.beqList xs xs = true
  | [] => rfl
  | x :: xs => by
      simp [PyVal.beqList, PyVal.beq_refl x, PyVal.beqList_refl xs]

theorem PyVal.beqKvs_refl :
    ∀ kvs : List (String × PyVal), PyVal.beqKvs kvs kvs = true
  | [] => rfl
  | (k, v) :: kvs => by
      simp [PyVal.beqKvs, PyVal.beq_refl v, PyVal.beqKvs_refl kvs]

end

theorem pyMemScan_of_mem {x : PyVal} {ids : List PyVal} (h : x ∈ ids) :
    pyMemScan x ids = true := by
  simpa [pyMemScan, List.any_eq_true] using ⟨x, h, PyVal.beq_refl x⟩

theorem foldlMInv {σ α e : Type} (P : σ → Prop) (f : σ → α → Except e σ)
    (hf : ∀ s a s', P s → f s a = .ok s' → P s') :
    ∀ (l : List α) (s s' : σ), P s → l.foldlM f s = .ok s' → P s' := by
  intro l
  induction l with
  | nil =>
      intro s s' hs h
      rw [List.foldlM_nil, expure] at h
      cases h
      exact hs
  | cons a l ih =>
      intro s s' hs h
      rw [List.foldlM_cons] at h
      rcases h1 : f s a with err | t
      · rw [h1, exbind_err] at h
        cases h
      · rw [h1, exbind_ok] at h
        exact ih t s' (hf s a t hs h1) h

theorem foldlMOk {σ α e : Type} (f : σ → α → Except e σ) (l : List α)
    (hf : ∀ s a, a ∈ l → ∃ s', f s a = .ok s') :
    ∀ s, ∃ s', l.foldlM f s = .ok s' := by
  induction l with
  | nil => intro s; exact ⟨s, by rw [List.foldlM_nil, expure]⟩
  | cons a l ih =>
      intro s
      obtain ⟨t, ht⟩ := hf s a (List.mem_cons_self a l)
      obtain ⟨s', hs'⟩ := ih (fun u b hb => hf u b (List.mem_cons_of_mem a hb)) t
      exact ⟨s', by rw [List.foldlM_cons, ht, exbind_ok, hs']⟩

theorem processCar_shape (sl cid : String) (ic ct : PyVal) (st : MergeState)
    (car : PyVal) (st' : MergeState)
    (h : processCar sl cid ic ct st car = .ok st') :
    st'.success_count = st.success_count ∧ st'.fail_count = st.fail_count ∧
    (st' = st ∨ ∃ vid,
       pyMemScan vid st.vehicle_ids = false ∧
       st'.vehicle_ids = st.vehicle_ids ++ [vid] ∧
       (st'.all_vehicles = st.all_vehicles ∨
        ∃ v : VehicleInfo, v.id = vid ∧ truthy v.lat = true ∧ truthy v.lng = true ∧
          st'.all_vehicles = st.all_vehicles ++ [v])) := by
  rcases h1 : pyGet car "id" PyVal.none with e | vid
  · simp [processCar, h1, exbind_err] at h
  rw [processCar, h1, exbind_ok] at h
  rcases hm : pyMem vid st.vehicle_ids with e | seen
  · rw [hm, exbind_err] at h
    cases h
  rw [hm, exbind_ok] at h
  have hscan : pyMemScan vid st.vehicle_ids = seen := by
    unfold pyMem at hm
    by_cases hh : pyHashable vid = true
    · rw [if_pos hh] at hm
      cases hm
      rfl
    · rw [if_neg hh] at hm
      cases hm
  by_cases hseen : seen = true
  · rw [if_pos hseen, expure] at h
    cases h
    exact ⟨rfl, rfl, Or.inl rfl⟩
  rw [if_neg hseen] at h
  have hmem : pyMemScan vid st.vehicle_ids = false := by
    rw [hscan]
    simpa using hseen
  rcases h2 : pyGet ic cid (.dict []) with e | ie
  · simp [h2, exbind_err] at h
  rw [h2, exbind_ok] at h
  rcases h3 : pyGet ie "icon_url" (.str "") with e | ir
  · simp [h3, exbind_err] at h
  rw [h3, exbind_ok] at h
  rcases h4 : pyStrip ir with e | iu
  · simp [h4, exbind_err] at h
  rw [h4, exbind_ok] at h
  rcases h5 : pyGet car "lat" PyVal.none with e | la
  · simp [h5, exbind_err] at h
  rw [h5, exbind_ok] at h
  rcases h6 : pyGet car "lng" PyVal.none with e | ln
  · simp [h6, exbind_err] at h
  rw [h6, exbind_ok] at h
  rcases h7 : pyGet car "bearing" (.num 0) with e | be
  · simp [h7, exbind_err] at h
  rw [h7, exbind_ok] at h
  rcases h8 : pyGet ct cid (.dict []) with e | ce
  · simp [h8, exbind_err] at h
  rw [h8, exbind_ok] at h
  rcases h9 : pyGet ce "name" (.str "Unknown") with e | cn
  · simp [h9, exbind_err] at h
  rw [h9, exbind_ok] at h
  by_cases hval : (truthy la && truthy ln) = true
  · rw [if_pos hval] at h
    simp only [expure, Except.ok.injEq] at h
    subst h
    refine ⟨rfl, rfl, Or.inr ⟨vid, hmem, rfl, Or.inr ?_⟩⟩
    refine ⟨⟨vid, la, ln, be, iu, cn, cid, sl⟩, rfl, ?_, ?_, rfl⟩
    · exact (Bool.and_eq_true _ _ |>.mp hval).1
    · exact (Bool.and_eq_true _ _ |>.mp hval).2
  · rw [if_neg hval] at h
    simp only [expure, Except.ok.injEq] at h
    subst h
    exact ⟨rfl, rfl, Or.inr ⟨vid, hmem, rfl, Or.inl rfl⟩⟩

theorem processCar_inv (sl cid : String) (ic ct : PyVal) (st st' : MergeState)
    (car : PyVal) (hI : MergeInv st)
    (h : processCar sl cid ic ct st car = .ok st') : MergeInv st' := by
  obtain ⟨-, -, hsh⟩ := processCar_shape sl cid ic ct st car st' h
  obtain ⟨hmem, hpair, htr⟩ := hI
  rcases hsh with rfl | ⟨vid, hvm, hids, hveh⟩
  · exact ⟨hmem, hpair, htr⟩
  rcases hveh with hsame | ⟨v, hvid, hla, hln, happ⟩
  · refine ⟨?_, by rw [hsame]; exact hpair, by rw [hsame]; exact htr⟩
    intro u hu
    rw [hsame] at hu
    rw [hids]
    exact List.mem_append_left _ (hmem u hu)
  · refine ⟨?_, ?_, ?_⟩
    · intro u hu
      rw [happ, List.mem_append] at hu
      rw [hids]
      rcases hu with hu | hu
      · exact List.mem_append_left _ (hmem u hu)
      · rw [List.mem_singleton] at hu
        subst hu
        rw [hvid]
        exact List.mem_append_right _ (List.mem_singleton_self _)
    · rw [happ, List.map_append, List.pairwise_append]
      refine ⟨hpair, List.pairwise_singleton _ _, ?_⟩
      intro a ha b hb
      rw [List.mem_map] at ha
      obtain ⟨u, hu, rfl⟩ := ha
      rw [List.map_singleton, List.mem_singleton] at hb
      subst hb
      intro hcontra
      have hmem' := pyMemScan_of_mem (hmem u hu)
      rw [hcontra, hvid] at hmem'
      simp [hmem'] at hvm
    · intro u hu
      rw [happ, List.mem_append] at hu
      rcases hu with hu | hu
      · exact htr u hu
      · rw [List.mem_singleton] at hu
        subst hu
        exact ⟨hla, hln⟩

theorem extractVehicles_inv (loc : String) (data : PyVal)
    (st st' : MergeState) (hI : MergeInv st)
    (h : extractVehicles loc data st = .ok st') : MergeInv st' := by
  unfold extractVehicles at h
  by_cases htv : (!truthy data) = true
  · rw [if_pos htv, expure] at h
    cases h
    exact hI
  rw [if_neg htv] at h
  rcases h1 : pyGet data "data" (.dict []) with e | d
  · rw [h1, exbind_err] at h; cases h
  rw [h1, exbind_ok] at h
  rcases h2 : pyGet d "vehicles" (.dict []) with e | vehicles
  · rw [h2, exbind_err] at h; cases h
  rw [h2, exbind_ok] at h
  rcases h3 : pyGet vehicles "taxi" (.dict []) with e | tv
  · rw [h3, exbind_err] at h; cases h
  rw [h3, exbind_ok] at h
  rcases h4 : pyGet vehicles "icons" (.dict []) with e | itop
  · rw [h4, exbind_err] at h; cases h
  rw [h4, exbind_ok] at h
  rcases h5 : pyGet itop "taxi" (.dict []) with e | ic
  · rw [h5, exbind_err] at h; cases h
  rw [h5, exbind_ok] at h
  rcases h6 : pyGet vehicles "category_details" (.dict []) with e | co
  · rw [h6, exbind_err] at h; cases h
  rw [h6, exbind_ok] at h
  rcases h7 : pyGet co "taxi" (.dict []) with e | ct
  · rw [h7, exbind_err] at h; cases h
  rw [h7, exbind_ok] at h
  rcases h8 : pyItems tv with e | entries
  · rw [h8, exbind_err] at h; cases h
  rw [h8, exbind_ok] at h
  refine foldlMInv MergeInv _ ?_ entries st st' hI h
  intro s entry s' hs hstep
  rcases entry with ⟨k, v⟩
  cases v with
  | list cars =>
      refine foldlMInv MergeInv (processCar loc k ic ct) ?_ cars s s' hs hstep
      exact fun t car t' ht hcar => processCar_inv loc k ic ct t t' car ht hcar
  | none => rw [expure] at hstep; cases hstep; exact hs
  | bool b => rw [expure] at hstep; cases hstep; exact hs
  | num q => rw [expure] at hstep; cases hstep; exact hs
  | str t => rw [expure] at hstep; cases hstep; exact hs
  | dict kvs => rw [expure] at hstep; cases hstep; exact hs

theorem processResponse_inv (st st' : MergeState) (r : FetchResultR)
    (hI : MergeInv st) (h : processResponse st r = .ok st') : MergeInv st' := by
  unfold processResponse at h
  by_cases hs : (!r.success) = true
  · rw [if_pos hs, expure] at h
    cases h
    exact hI
  · rw [if_neg hs] at h
    exact extractVehicles_inv r.location r.data
      { st with success_count := st.success_count + 1 } st' hI h

theorem mergeRun_inv (rs : List FetchResultR) (st : MergeState)
    (h : mergeRun rs = .ok st) : MergeInv st := by
  refine foldlMInv MergeInv processResponse
    (fun s r s' hs hr => processResponse_inv s s' r hs hr) rs _ st ?_ h
  refine ⟨?_, List.Pairwise.nil, ?_⟩ <;> intro v hv <;> cases hv

theorem process_ok_iff (rs : List FetchResultR) (vs : List VehicleInfo) :
    process_all_responses rs = .ok vs ↔
      ∃ st, mergeRun rs = .ok st ∧ st.all_vehicles = vs := by
  unfold process_all_responses
  rcases h : mergeRun rs with e | st
  · simp [Except.map]
  · simp [Except.map]

theorem processCar_addCounts (sl cid : String) (ic ct : PyVal)
    (st : MergeState) (car : PyVal) (dn dm : Nat) :
    processCar sl cid ic ct (addCounts dn dm st) car =
      (processCar sl cid ic ct st car).map (addCounts dn dm) := by
  rcases h1 : pyGet car "id" PyVal.none with e | vid
  · unfold processCar
    rw [h1, exbind_err, exbind_err]
    rfl
  unfold processCar
  rw [h1, exbind_ok, exbind_ok]
  have hids : (addCounts dn dm st).vehicle_ids = st.vehicle_ids := rfl
  rw [hids]
  rcases hm : pyMem vid st.vehicle_ids with e | seen
  · rw [exbind_err, exbind_err]
    rfl
  rw [exbind_ok, exbind_ok]
  by_cases hseen : seen = true
  · rw [if_pos hseen, if_pos hseen]
    rfl
  rw [if_neg hseen, if_neg hseen]
  rcases h2 : pyGet ic cid (.dict []) with e | ie
  · rw [exbind_err, exbind_err]; rfl
  rw [exbind_ok, exbind_ok]
  rcases h3 : pyGet ie "icon_url" (.str "") with e | ir
  · rw [exbind_err, exbind_err]; rfl
  rw [exbind_ok, exbind_ok]
  rcases h4 : pyStrip ir with e | iu
  · rw [exbind_err, exbind_err]; rfl
  rw [exbind_ok, exbind_ok]
  rcases h5 : pyGet car "lat" PyVal.none with e | la
  · rw [exbind_err, exbind_err]; rfl
  rw [exbind_ok, exbind_ok]
  rcases h6 : pyGet car "lng" PyVal.none with e | ln
  · rw [exbind_err, exbind_err]; rfl
  rw [exbind_ok, exbind_ok]
  rcases h7 : pyGet car "bearing" (.num 0) with e | be
  · rw [exbind_err, exbind_err]; rfl
  rw [exbind_ok, exbind_ok]
  rcases h8 : pyGet ct cid (.dict []) with e | ce
  · rw [exbind_err, exbind_err]; rfl
  rw [exbind_ok, exbind_ok]
  rcases h9 : pyGet ce "name" (.str "Unknown") with e | cn
  · rw [exbind_err, exbind_err]; rfl
  rw [exbind_ok, exbind_ok]
  by_cases hval : (truthy la && truthy ln) = true
  · rw [if_pos hval, if_pos hval]
    rfl
  · rw [if_neg hval, if_neg hval]
    rfl

theorem foldlM_addCounts {α : Type} (f : MergeState → α → Except PyErr MergeState)
    (hf : ∀ s x dn dm, f (addCounts dn dm s) x = (f s x).map (addCounts dn dm)) :
    ∀ (l : List α) (s : MergeState) (dn dm : Nat),
      l.foldlM f (addCounts dn dm s) = (l.foldlM f s).map (addCounts dn dm) := by
  intro l
  induction l with
  | nil =>
      intro s dn dm
      rw [List.foldlM_nil, List.foldlM_nil]
      rfl
  | cons x l ih =>
      intro s dn dm
      rw [List.foldlM_cons, List.foldlM_cons, hf]
      rcases h : f s x with e | t
      · rw [exbind_err]
        rfl
      · rw [Except.map, exbind_ok, exbind_ok]
        exact ih t dn dm

theorem extractVehicles_char (loc : String) (data : PyVal) :
    (∀ s, extractVehicles loc data s = pure s) ∨
    (∃ e, ∀ s, extractVehicles loc data s = .error e) ∨
    (∃ (entries : List (String × PyVal)) (ic ct : PyVal),
       ∀ s : MergeState, extractVehicles loc data s =
       entries.foldlM
         (fun st entry =>
           match entry.2 with
           | PyVal.list cars =>
               cars.foldlM (processCar loc entry.1 ic ct) st
           | _ => pure st) s) := by
  by_cases htv : (!truthy data) = true
  · left
    intro s
    unfold extractVehicles
    rw [if_pos htv]
  right
  rcases h1 : pyGet data "data" (.dict []) with e | d
  · refine Or.inl ⟨e, fun s => ?_⟩
    unfold extractVehicles
    rw [if_neg htv, h1, exbind_err]
  rcases h2 : pyGet d "vehicles" (.dict []) with e | vehicles
  · refine Or.inl ⟨e, fun s => ?_⟩
    unfold extractVehicles
    rw [if_neg htv, h1, exbind_ok, h2, exbind_err]
  rcases h3 : pyGet vehicles "taxi" (.dict []) with e | tv
  · refine Or.inl ⟨e, fun s => ?_⟩
    unfold extractVehicles
    rw [if_neg htv, h1, exbind_ok, h2, exbind_ok, h3, exbind_err]
  rcases h4 : pyGet vehicles "icons" (.dict []) with e | itop
  · refine Or.inl ⟨e, fun s => ?_⟩
    unfold extractVehicles
    rw [if_neg htv, h1, exbind_ok, h2, exbind_ok, h3, exbind_ok, h4, exbind_err]
  rcases h5 : pyGet itop "taxi" (.dict []) with e | ic
  · refine Or.inl ⟨e, fun s => ?_⟩
    unfold extractVehicles
    rw [if_neg htv, h1, exbind_ok, h2, exbind_ok, h3, exbind_ok, h4, exbind_ok,
      h5, exbind_err]
  rcases h6 : pyGet vehicles "category_details" (.dict []) with e | co
  · refine Or.inl ⟨e, fun s => ?_⟩
    unfold extractVehicles
    rw [if_neg htv, h1, exbind_ok, h2, exbind_ok, h3, exbind_ok, h4, exbind_ok,
      h5, exbind_ok, h6, exbind_err]
  rcases h7 : pyGet co "taxi" (.dict []) with e | ct
  · refine Or.inl ⟨e, fun s => ?_⟩
    unfold extractVehicles
    rw [if_neg htv, h1, exbind_ok, h2, exbind_ok, h3, exbind_ok, h4, exbind_ok,
      h5, exbind_ok, h6, exbind_ok, h7, exbind_err]
  rcases h8 : pyItems tv with e | entries
  · refine Or.inl ⟨e, fun s => ?_⟩
    unfold extractVehicles
    rw [if_neg htv, h1, exbind_ok, h2, exbind_ok, h3, exbind_ok, h4, exbind_ok,
      h5, exbind_ok, h6, exbind_ok, h7, exbind_ok, h8, exbind_err]
  · refine Or.inr ⟨entries, ic, ct, fun s => ?_⟩
    unfold extractVehicles
    rw [if_neg htv, h1, exbind_ok, h2, exbind_ok, h3, exbind_ok, h4, exbind_ok,
      h5, exbind_ok, h6, exbind_ok, h7, exbind_ok, h8, exbind_ok]

theorem extractVehicles_addCounts (loc : String) (data : PyVal)
    (s : MergeState) (dn dm : Nat) :
    extractVehicles loc data (addCounts dn dm s) =
      (extractVehicles loc data s).map (addCounts dn dm) := by
  rcases extractVehicles_char loc data with hp | ⟨e, he⟩ | ⟨entries, ic, ct, hf⟩
  · rw [hp, hp]; rfl
  · rw [he, he]; rfl
  · rw [hf, hf]
    refine foldlM_addCounts _ ?_ entries s dn dm
    intro t entry dn' dm'
    rcases entry with ⟨k, v⟩
    cases v with
    | list cars =>
        exact foldlM_addCounts (processCar loc k ic ct)
          (fun u car a b => processCar_addCounts loc k ic ct u car a b)
          cars t dn' dm'
    | none => rfl
    | bool b => rfl
    | num q => rfl
    | str w => rfl
    | dict kvs => rfl

theorem processResponse_addCounts (s : MergeState) (r : FetchResultR)
    (dn dm : Nat) :
    processResponse (addCounts dn dm s) r =
      (processResponse s r).map (addCounts dn dm) := by
  unfold processResponse
  by_cases hs : (!r.success) = true
  · rw [if_pos hs, if_pos hs]
    have heq : ({ addCounts dn dm s with
        fail_count := (addCounts dn dm s).fail_count + 1 } : MergeState) =
        addCounts dn dm { s with fail_count := s.fail_count + 1 } := by
      simp only [addCounts]
      congr 1
      omega
    rw [heq]
    rfl
  · rw [if_neg hs, if_neg hs]
    have heq : ({ addCounts dn dm s with
        success_count := (addCounts dn dm s).success_count + 1 } : MergeState) =
        addCounts dn dm { s with success_count := s.success_count + 1 } := by
      simp only [addCounts]
      congr 1
      omega
    rw [heq, extractVehicles_addCounts]

theorem extractVehicles_counts (loc : String) (data : PyVal)
    (s t : MergeState) (h : extractVehicles loc data s = .ok t) :
    t.success_count = s.success_count ∧ t.fail_count = s.fail_count := by
  rcases extractVehicles_char loc data with hp | ⟨e, he⟩ | ⟨entries, ic, ct, hf⟩
  · rw [hp, expure] at h
    cases h
    exact ⟨rfl, rfl⟩
  · rw [he] at h
    cases h
  · rw [hf] at h
    refine foldlMInv
      (fun u => u.success_count = s.success_count ∧ u.fail_count = s.fail_count)
      _ ?_ entries s t ⟨rfl, rfl⟩ h
    intro u entry u' hu hstep
    rcases entry with ⟨k, v⟩
    cases v with
    | list cars =>
        refine foldlMInv
          (fun w => w.success_count = s.success_count ∧ w.fail_count = s.fail_count)
          (processCar loc k ic ct) ?_ cars u u' hu hstep
        intro w car w' hw hcar
        obtain ⟨hsc, hfc, -⟩ := processCar_shape loc k ic ct w car w' hcar
        exact ⟨hsc.trans hw.1, hfc.trans hw.2⟩
    | none => rw [expure] at hstep; cases hstep; exact hu
    | bool b => rw [expure] at hstep; cases hstep; exact hu
    | num q => rw [expure] at hstep; cases hstep; exact hu
    | str w => rw [expure] at hstep; cases hstep; exact hu
    | dict kvs => rw [expure] at hstep; cases hstep; exact hu

theorem foldlM_counts (rs : List FetchResultR) :
    ∀ (s st : MergeState), List.foldlM processResponse s rs = .ok st →
      st.success_count = s.success_count + (rs.filter fun r => r.success).length ∧
      st.fail_count = s.fail_count + (rs.filter fun r => !r.success).length := by
  induction rs with
  | nil =>
      intro s st h
      rw [List.foldlM_nil, expure] at h
      cases h
      simp
  | cons r rs ih =>
      intro s st h
      rw [List.foldlM_cons] at h
      rcases h1 : processResponse s r with e | t
      · rw [h1, exbind_err] at h
        cases h
      rw [h1, exbind_ok] at h
      obtain ⟨ihs, ihf⟩ := ih t st h
      unfold processResponse at h1
      by_cases hs : (!r.success) = true
      · rw [if_pos hs, expure] at h1
        cases h1
        have hrs : r.success = false := by simpa using hs
        rw [List.filter_cons, List.filter_cons]
        simp only [hrs, Bool.not_false, if_false, if_true, Bool.false_eq_true,
          ite_true, ite_false, List.length_cons]
        constructor
        · rw [ihs]
        · rw [ihf]
          simp only [MergeState.fail_count]
          omega
      · rw [if_neg hs] at h1
        have hrs : r.success = true := by simpa using hs
        obtain ⟨hts, htf⟩ := extractVehicles_counts r.location r.data _ t h1
        rw [List.filter_cons, List.filter_cons]
        simp only [hrs, Bool.not_true, if_true, if_false, Bool.false_eq_true,
          ite_true, ite_false, List.length_cons]
        constructor
        · rw [ihs, hts]
          simp only [MergeState.success_count]
          omega
        · rw [ihf, htf]

theorem mergeRun_counts (rs : List FetchResultR) (st : MergeState)
    (h : mergeRun rs = .ok st) :
    st.success_count = (rs.filter fun r => r.success).length ∧
    st.fail_count = (rs.filter fun r => !r.success).length := by
  have := foldlM_counts rs ⟨[], [], 0, 0⟩ st h
  simpa using this

theorem mergeRun_insert_empty (xs ys : List FetchResultR) (loc : String)
    (data : PyVal) (err : Option String) (hdata : truthy data = false) :
    mergeRun (xs ++ ⟨loc, data, true, err⟩ :: ys) =
      (mergeRun (xs ++ ys)).map (addCounts 1 0) := by
  unfold mergeRun
  rw [List.foldlM_append, List.foldlM_append]
  rcases h : List.foldlM processResponse ⟨[], [], 0, 0⟩ xs with e | st
  · rw [exbind_err, exbind_err]
    rfl
  rw [exbind_ok, exbind_ok, List.foldlM_cons]
  have hstep : processResponse st ⟨loc, data, true, err⟩ = .ok (addCounts 1 0 st) := by
    unfold processResponse
    rw [if_neg (by simp)]
    unfold extractVehicles
    rw [if_pos (by simp [hdata])]
    rfl
  rw [hstep, exbind_ok]
  exact foldlM_addCounts processResponse
    (fun s x dn dm => processResponse_addCounts s x dn dm) ys st 1 0

theorem lookup_all {p : PyVal → Bool} {kvs : List (String × PyVal)}
    {k : String} {v : PyVal}
    (h : (kvs.all fun kv => p kv.2) = true) (hl : lookupStr kvs k = some v) :
    p v = true := by
  induction kvs with
  | nil => cases hl
  | cons kv rest ih =>
      rcases kv with ⟨key, val⟩
      rw [List.all_cons, Bool.and_eq_true] at h
      unfold lookupStr at hl
      by_cases hk : (key == k) = true
      · rw [if_pos hk] at hl
        cases hl
        exact h.1
      · rw [if_neg hk] at hl
        exact ih h.2 hl

theorem processCar_ok (sl cid : String) (ic ct : PyVal) (s : MergeState)
    (car : PyVal) (hcar : safeCar car = true) (hic : safeIconTable ic = true)
    (hct : safeCatTable ct = true) :
    ∃ t, processCar sl cid ic ct s car = .ok t := by
  rcases car with _ | b | q | w | xs | ckvs
  iterate 5 simp [safeCar] at hcar
  have hhash : pyHashable (dGetD ckvs "id" PyVal.none) = true := by
    simpa [safeCar] using hcar
  rcases ic with _ | b | q | w | xs | iks
  iterate 5 simp [safeIconTable] at hic
  rcases ct with _ | b | q | w | xs | cks
  iterate 5 simp [safeCatTable] at hct
  unfold processCar
  rw [show pyGet (PyVal.dict ckvs) "id" PyVal.none =
        .ok (dGetD ckvs "id" PyVal.none) from rfl, exbind_ok]
  rw [show pyMem (dGetD ckvs "id" PyVal.none) s.vehicle_ids =
        .ok (pyMemScan (dGetD ckvs "id" PyVal.none) s.vehicle_ids) from by
      unfold pyMem
      rw [if_pos hhash], exbind_ok]
  by_cases hmem :
      pyMemScan (dGetD ckvs "id" PyVal.none) s.vehicle_ids = true
  · refine ⟨s, ?_⟩
    rw [if_pos hmem]
    rfl
  rw [if_neg hmem]
  have hie : iconEntryOk (dGetD iks cid (.dict [])) = true := by
    unfold dGetD
    rcases hlk : lookupStr iks cid with _ | v
    · rfl
    · simpa using lookup_all (p := iconEntryOk) (by simpa [safeIconTable] using hic) hlk
  rcases hice : dGetD iks cid (.dict []) with _ | b | q | w | xs | ekvs
  iterate 5 simp [hice, iconEntryOk] at hie
  rw [show pyGet (PyVal.dict iks) cid (PyVal.dict []) =
        .ok (dGetD iks cid (PyVal.dict [])) from rfl, exbind_ok, hice]
  rw [show pyGet (PyVal.dict ekvs) "icon_url" (PyVal.str "") =
        .ok (dGetD ekvs "icon_url" (PyVal.str "")) from rfl, exbind_ok]
  have hiu : ∃ u, dGetD ekvs "icon_url" (.str "") = .str u := by
    unfold dGetD
    rcases hlk : lookupStr ekvs "icon_url" with _ | v
    · exact ⟨"", rfl⟩
    · rw [hice, iconEntryOk, hlk] at hie
      rcases v with _ | b | q | w | xs | vkvs
      · cases hie
      · cases hie
      · cases hie
      · exact ⟨w, rfl⟩
      · cases hie
      · cases hie
  obtain ⟨u, hu⟩ := hiu
  rw [hu, show pyStrip (PyVal.str u) = .ok (pyStripStr u) from rfl, exbind_ok]
  rw [show pyGet (PyVal.dict ckvs) "lat" PyVal.none =
        .ok (dGetD ckvs "lat" PyVal.none) from rfl, exbind_ok]
  rw [show pyGet (PyVal.dict ckvs) "lng" PyVal.none =
        .ok (dGetD ckvs "lng" PyVal.none) from rfl, exbind_ok]
  rw [show pyGet (PyVal.dict ckvs) "bearing" (PyVal.num 0) =
        .ok (dGetD ckvs "bearing" (PyVal.num 0)) from rfl, exbind_ok]
  have hce : isDict (dGetD cks cid (.dict [])) = true := by
    unfold dGetD
    rcases hlk : lookupStr cks cid with _ | v
    · rfl
    · simpa using lookup_all (p := isDict) (by simpa [safeCatTable] using hct) hlk
  rcases hcee : dGetD cks cid (.dict []) with _ | b | q | w | xs | cekvs
  iterate 5 rw [hcee] at hce; simp [isDict] at hce
  rw [show pyGet (PyVal.dict cks) cid (PyVal.dict []) =
        .ok (dGetD cks cid (PyVal.dict [])) from rfl, exbind_ok, hcee]
  rw [show pyGet (PyVal.dict cekvs) "name" (PyVal.str "Unknown") =
        .ok (dGetD cekvs "name" (PyVal.str "Unknown")) from rfl, exbind_ok]
  by_cases hval : (truthy (dGetD ckvs "lat" PyVal.none) &&
      truthy (dGetD ckvs "lng" PyVal.none)) = true
  · rw [if_pos hval]
    exact ⟨_, rfl⟩
  · rw [if_neg hval]
    exact ⟨_, rfl⟩

theorem extractVehicles_ok (loc : String) (data : PyVal) (s : MergeState)
    (hsafe : safePayload data = true) :
    ∃ t, extractVehicles loc data s = .ok t := by
  by_cases htr : truthy data = true
  case neg =>
    refine ⟨s, ?_⟩
    unfold extractVehicles
    rw [if_pos (by simp [Bool.not_eq_true] at htr ⊢; exact htr)]
    rfl
  case pos =>
    unfold safePayload at hsafe
    rw [if_pos htr] at hsafe
    rcases data with _ | b | q | w | xs | kvs
    iterate 5 simp [safePayloadCore] at hsafe
    simp only [safePayloadCore] at hsafe
    rcases hd : dGetD kvs "data" (.dict []) with _ | b | q | w | xs | dkvs
    iterate 5 (rw [hd] at hsafe; simp [safeDataVal] at hsafe)
    rw [hd] at hsafe
    simp only [safeDataVal] at hsafe
    rcases hv : dGetD dkvs "vehicles" (.dict []) with _ | b | q | w | xs | vkvs
    iterate 5 (rw [hv] at hsafe; simp [safeVehiclesVal] at hsafe)
    rw [hv] at hsafe
    simp only [safeVehiclesVal] at hsafe
    rw [Bool.and_eq_true, Bool.and_eq_true] at hsafe
    obtain ⟨⟨htv, hicons⟩, hco⟩ := hsafe
    rcases hi : dGetD vkvs "icons" (.dict []) with _ | b | q | w | xs | ikvs
    iterate 5 (rw [hi] at hicons; simp [safeIconsVal] at hicons)
    rw [hi] at hicons
    simp only [safeIconsVal] at hicons
    rcases hc : dGetD vkvs "category_details" (.dict [])
      with _ | b | q | w | xs | ckvs2
    iterate 5 (rw [hc] at hco; simp [safeCatsVal] at hco)
    rw [hc] at hco
    simp only [safeCatsVal] at hco
    rcases ht : dGetD vkvs "taxi" (.dict []) with _ | b | q | w | xs | tks
    iterate 5 (rw [ht] at htv; simp [safeTaxiTable] at htv)
    rw [ht] at htv
    unfold extractVehicles
    rw [if_neg (by simp [htr])]
    rw [show pyGet (PyVal.dict kvs) "data" (PyVal.dict []) =
          .ok (dGetD kvs "data" (PyVal.dict [])) from rfl, exbind_ok, hd]
    rw [show pyGet (PyVal.dict dkvs) "vehicles" (PyVal.dict []) =
          .ok (dGetD dkvs "vehicles" (PyVal.dict [])) from rfl, exbind_ok, hv]
    rw [show pyGet (PyVal.dict vkvs) "taxi" (PyVal.dict []) =
          .ok (dGetD vkvs "taxi" (PyVal.dict [])) from rfl, exbind_ok, ht]
    rw [show pyGet (PyVal.dict vkvs) "icons" (PyVal.dict []) =
          .ok (dGetD vkvs "icons" (PyVal.dict [])) from rfl, exbind_ok, hi]
    rw [show pyGet (PyVal.dict ikvs) "taxi" (PyVal.dict []) =
          .ok (dGetD ikvs "taxi" (PyVal.dict [])) from rfl, exbind_ok]
    rw [show pyGet (PyVal.dict vkvs) "category_details" (PyVal.dict []) =
          .ok (dGetD vkvs "category_details" (PyVal.dict [])) from rfl,
        exbind_ok, hc]
    rw [show pyGet (PyVal.dict ckvs2) "taxi" (PyVal.dict []) =
          .ok (dGetD ckvs2 "taxi" (PyVal.dict [])) from rfl, exbind_ok]
    rw [show pyItems (PyVal.dict tks) = .ok tks from rfl, exbind_ok]
    refine foldlMOk _ tks ?_ s
    intro u entry hmementry
    rcases entry with ⟨k, v⟩
    have htv' : ∀ a : String, ∀ b : PyVal, (a, b) ∈ tks →
        (match b with
         | PyVal.list cars => cars.all safeCar
         | _ => true) = true := by
      simpa [safeTaxiTable] using htv
    have hventry := htv' k v hmementry
    cases v with
    | list cars =>
        refine foldlMOk _ cars ?_ u
        intro w car hcmem
        have hcars : ∀ c ∈ cars, safeCar c = true := by
          simpa [List.all_eq_true] using hventry
        exact processCar_ok loc k (dGetD ikvs "taxi" (.dict []))
          (dGetD ckvs2 "taxi" (.dict [])) w car (hcars car hcmem) hicons hco
    | none => exact ⟨u, rfl⟩
    | bool b => exact ⟨u, rfl⟩
    | num q => exact ⟨u, rfl⟩
    | str w2 => exact ⟨u, rfl⟩
    | dict kvs2 => exact ⟨u, rfl⟩

theorem processResponse_ok (s : MergeState) (r : FetchResultR)
    (hr : r.success = true → safePayload r.data = true) :
    ∃ t, processResponse s r = .ok t := by
  unfold processResponse
  by_cases hs : (!r.success) = true
  · rw [if_pos hs]
    exact ⟨_, rfl⟩
  · rw [if_neg hs]
    exact extractVehicles_ok r.location r.data _ (hr (by simpa using hs))

theorem mergeRun_ok (rs : List FetchResultR)
    (h : (rs.all fun r => !r.success || safePayload r.data) = true) :
    ∃ st, mergeRun rs = .ok st := by
  unfold mergeRun
  refine foldlMOk processResponse rs ?_ _
  intro s r hrmem
  apply processResponse_ok
  intro hsucc
  have hall := (List.all_eq_true.mp h) r hrmem
  rw [hsucc] at hall
  simpa using hall

theorem fetch_single_location_location (loc : Location)
    (outcome : FetchOutcome) :
    (fetch_single_location loc outcome).location = loc.name := by
  unfold fetch_single_location
  split
  · rfl
  · split
    · split <;> rfl
    · rfl

theorem runCycle_slept (tm : Bool) (locs : List Location) (inp : CycleInput) :
    (runCycle tm locs inp).slept = FETCH_INTERVAL := by
  simp only [runCycle]
  split
  · split <;> rfl
  · split
    · rfl
    · split <;> rfl

/-- C1: for every input list of N locations, `fetch_all_locations`
returns exactly N results — whatever each fetch does (fail, time out,
or raise, all absorbed by `fetch_single_location`) and whatever
completion order `as_completed` yields — with one result per input
location (as a permutation of the per-location results) and no
location dropped. -/
theorem fetchAll_complete (locs order : List Location)
    (outcomes : Location → FetchOutcome) (hperm : order.Perm locs) :
    (fetch_all_locations order outcomes).length = locs.length ∧
    (fetch_all_locations order outcomes).Perm
      (locs.map fun loc => fetch_single_location loc (outcomes loc)) ∧
    ∀ loc ∈ locs, fetch_single_location loc (outcomes loc) ∈
      fetch_all_locations order outcomes := by
  have hp : (fetch_all_locations order outcomes).Perm
      (locs.map fun loc => fetch_single_location loc (outcomes loc)) :=
    hperm.map _
  refine ⟨?_, hp, ?_⟩
  · rw [hp.length_eq, List.length_map]
  · intro loc hl
    exact hp.symm.subset (List.mem_map_of_mem _ hl)

/-- Witness for C1 at a concrete two-location batch fetched in swapped
completion order, with one timeout. -/
theorem fetchAll_complete_witness :
    ([locB, locA].Perm [locA, locB]) ∧
    ((fetch_all_locations [locB, locA] witnessOutcomes).length =
       ([locA, locB] : List Location).length ∧
     (fetch_all_locations [locB, locA] witnessOutcomes).Perm
       ([locA, locB].map fun loc => fetch_single_location loc (witnessOutcomes loc)) ∧
     ∀ loc ∈ [locA, locB], fetch_single_location loc (witnessOutcomes loc) ∈
       fetch_all_locations [locB, locA] witnessOutcomes) :=
  ⟨List.Perm.swap locA locB [],
   fetchAll_complete [locA, locB] [locB, locA] witnessOutcomes
     (List.Perm.swap locA locB [])⟩

/-- C2: `process_all_responses` is a pure, deterministic function of
its input batch, and whenever it returns normally its output contains
no two vehicles with the same id (Python ids compared as values). -/
theorem merge_deterministic_nodup_ids (rs : List FetchResultR)
    (vs : List VehicleInfo) (h : process_all_responses rs = .ok vs) :
    process_all_responses rs = process_all_responses rs ∧
    (vs.map fun v => v.id).Pairwise (· ≠ ·) := by
  refine ⟨rfl, ?_⟩
  obtain ⟨st, hst, hveh⟩ := (process_ok_iff rs vs).mp h
  obtain ⟨-, hpair, -⟩ := mergeRun_inv rs st hst
  rw [← hveh]
  exact hpair

/-- Witness for C2 at the concrete §8 scenario batch. -/
theorem merge_deterministic_nodup_ids_witness :
    process_all_responses scenarioBatch = process_all_responses scenarioBatch ∧
    (scenarioOutput.map fun v => v.id).Pairwise (· ≠ ·) :=
  merge_deterministic_nodup_ids scenarioBatch scenarioOutput rfl

/-- C3 counterexample: id `a` occurs in a successful payload with
valid (truthy) coordinates 5 and 6, yet the merge output is empty —
the earlier zero-coordinate occurrence of `a` consumed the id in the
dedup set before the validity filter dropped it, so no vehicle with
id `a` survives, refuting "exactly one always survives". -/
theorem merge_poisoned_id_cex :
    (poisonValidCar = PyVal.dict
       [("id", .str "a"), ("lat", .num 5), ("lng", .num 6)] ∧
     truthy (.num 5) = true ∧ truthy (.num 6) = true) ∧
    process_all_responses poisonBatch = .ok [] :=
  ⟨⟨rfl, rfl, rfl⟩, rfl⟩

/-- C3 (amended): at most one vehicle with any given id survives into
the merge output — exactly one when the first-processed occurrence of
the id passes the validity filter, and zero when an invalid-coordinate
occurrence is processed first (it still claims the id in the dedup
set).  In the §8 scenario (A returns v1,v2; B returns v2,v3; C times
out) the output is exactly v1, v2, v3 with v2's coordinates from A,
successCount 2, failCount 1, failed location C. -/
theorem merge_at_most_one_per_id (rs : List FetchResultR)
    (vs : List VehicleInfo) (h : process_all_responses rs = .ok vs) :
    (vs.map fun v => v.id).Pairwise (· ≠ ·) ∧
    process_all_responses scenarioBatch = .ok scenarioOutput ∧
    (mergeRun scenarioBatch).map (fun st => (st.success_count, st.fail_count)) =
      .ok (2, 1) ∧
    ((scenarioBatch.filter fun r => !r.success).map fun r => r.location) = ["C"] := by
  obtain ⟨st, hst, hveh⟩ := (process_ok_iff rs vs).mp h
  obtain ⟨-, hpair, -⟩ := mergeRun_inv rs st hst
  exact ⟨hveh ▸ hpair, rfl, rfl, rfl⟩

/-- Witness for the amended C3 at the §8 scenario batch. -/
theorem merge_at_most_one_per_id_witness :
    (scenarioOutput.map fun v => v.id).Pairwise (· ≠ ·) ∧
    process_all_responses scenarioBatch = .ok scenarioOutput ∧
    (mergeRun scenarioBatch).map (fun st => (st.success_count, st.fail_count)) =
      .ok (2, 1) ∧
    ((scenarioBatch.filter fun r => !r.success).map fun r => r.location) = ["C"] :=
  merge_at_most_one_per_id scenarioBatch scenarioOutput rfl

/-- C4 counterexample: a null-latitude record is dropped as claimed,
but its sibling — a record with valid coordinates 7, 8 reusing the
same id `s` — is also excluded: the batch merges to the empty list,
while the same sibling alone merges to one vehicle.  The invalid
record's id insertion suppresses the valid sibling, refuting
"sibling records with valid coordinates are still included". -/
theorem merge_sibling_suppressed_cex :
    (sameIdSibling = PyVal.dict
       [("id", .str "s"), ("lat", .num 7), ("lng", .num 8)] ∧
     truthy (.num 7) = true ∧ truthy (.num 8) = true) ∧
    process_all_responses siblingBatch = .ok [] ∧
    process_all_responses [⟨"A", mkPayload [sameIdSibling], true, Option.none⟩] =
      .ok [⟨.str "s", .num 7, .num 8, .num 0, "", .str "Unknown", "cat1", "A"⟩] :=
  ⟨⟨rfl, rfl, rfl⟩, rfl, rfl⟩

/-- C4 (amended): every vehicle in the merge output has truthy
(present, non-null, non-zero) latitude and longitude — invalid records
are never defaulted into the output — and in the §8 null-latitude
scenario the lat-null record is excluded while its fresh-id sibling is
included; a sibling whose id was already consumed by an earlier record
(even an invalid one) is dropped by dedup. -/
theorem merge_validity_filter (rs : List FetchResultR)
    (vs : List VehicleInfo) (h : process_all_responses rs = .ok vs) :
    (∀ v ∈ vs, truthy v.lat = true ∧ truthy v.lng = true) ∧
    process_all_responses nullLatBatch =
      .ok [⟨.str "y", .num 7, .num 8, .num 0, "", .str "Unknown", "cat1", "A"⟩] := by
  obtain ⟨st, hst, hveh⟩ := (process_ok_iff rs vs).mp h
  obtain ⟨-, -, htr⟩ := mergeRun_inv rs st hst
  exact ⟨hveh ▸ htr, rfl⟩

/-- Witness for the amended C4 at the §8 scenario batch. -/
theorem merge_validity_filter_witness :
    (∀ v ∈ scenarioOutput, truthy v.lat = true ∧ truthy v.lng = true) ∧
    process_all_responses nullLatBatch =
      .ok [⟨.str "y", .num 7, .num 8, .num 0, "", .str "Unknown", "cat1", "A"⟩] :=
  merge_validity_filter scenarioBatch scenarioOutput rfl

/-- C5 counterexample: a successful result whose payload nests a
string where the merge drills with `.get` makes
`process_all_responses` raise an `AttributeError` — the exception
escapes the merge instead of degrading to zero vehicles. -/
theorem merge_raises_on_nondict_cex :
    (badShapeBatch.all fun r => r.success) = true ∧
    process_all_responses badShapeBatch = .error (.attributeError "get") :=
  ⟨rfl, rfl⟩

/-- C5 (amended): `process_all_responses` raises no exception on any
batch whose successful payloads are falsy or dict-shaped at every
drilled position with hashable (non-list, non-dict) record ids
(`safePayload`); within that shape, a malformed payload (missing keys,
or a non-list where a vehicle list is expected) degrades to zero
vehicles extracted from that result while the other results still
contribute.  Outside that shape the merge raises: a truthy payload
with a non-dict at a drilled position raises `AttributeError`, and a
record whose id value is a list or dict (unhashable in Python) raises
`TypeError` at the seen-set membership test — such a payload is
excluded from `safePayload`. -/
theorem merge_total_on_safe_batches (rs : List FetchResultR)
    (h : (rs.all fun r => !r.success || safePayload r.data) = true) :
    (∃ vs, process_all_responses rs = .ok vs) ∧
    process_all_responses degradeBatch =
      .ok [⟨.str "z", .num 3, .num 4, .num 0, "", .str "Unknown", "cat1", "B"⟩] ∧
    process_all_responses unhashableIdBatch =
      .error (.typeError "unhashable type") ∧
    (unhashableIdBatch.all fun r => !r.success || safePayload r.data) = false := by
  obtain ⟨st, hst⟩ := mergeRun_ok rs h
  refine ⟨⟨st.all_vehicles, ?_⟩, rfl, rfl, rfl⟩
  rw [process_all_responses, hst]
  rfl

/-- Witness for the amended C5 at the concrete degrade batch. -/
theorem merge_total_on_safe_batches_witness :
    (∃ vs, process_all_responses degradeBatch = .ok vs) ∧
    process_all_responses degradeBatch =
      .ok [⟨.str "z", .num 3, .num 4, .num 0, "", .str "Unknown", "cat1", "B"⟩] ∧
    process_all_responses unhashableIdBatch =
      .error (.typeError "unhashable type") ∧
    (unhashableIdBatch.all fun r => !r.success || safePayload r.data) = false :=
  merge_total_on_safe_batches degradeBatch rfl

/-- C6 counterexample: a 201 response — a 2xx status — is classified
as a failure: `fetch_single_location` tests `status_code == 200`
exactly, so the result has success false and error "Status 201",
refuting "on every 2xx response it returns success true". -/
theorem fetch_201_not_success_cex :
    200 ≤ 201 ∧ 201 < 300 ∧
    (fetch_single_location locA (.response 201 (some (.dict [])))).success = false ∧
    (fetch_single_location locA (.response 201 (some (.dict [])))).error =
      some "Status 201" :=
  ⟨by decide, by decide, rfl, rfl⟩

/-- C6 (amended): `fetch_single_location` never raises past its
boundary (it is a total function of the fetch outcome) and classifies
exactly as: any exception in the try block yields success false with
the exception text as error; any response with status other than 200
— including other 2xx statuses — yields success false with error
"Status <code>"; a 200 response with decodable body yields success
true carrying the raw decoded body; a 200 response whose body fails
JSON decoding yields success false. -/
theorem fetch_classification (loc : Location) (outcome : FetchOutcome) :
    (∀ msg, outcome = .exn msg →
       fetch_single_location loc outcome =
         ⟨loc.name, .none, false, some msg⟩) ∧
    (∀ status body, outcome = .response status body → status ≠ 200 →
       (fetch_single_location loc outcome).success = false ∧
       (fetch_single_location loc outcome).error =
         some ("Status " ++ toString status)) ∧
    (∀ body, outcome = .response 200 (some body) →
       fetch_single_location loc outcome =
         ⟨loc.name, body, true, Option.none⟩) ∧
    (outcome = .response 200 Option.none →
       (fetch_single_location loc outcome).success = false ∧
       (fetch_single_location loc outcome).error = some "JSONDecodeError") := by
  refine ⟨?_, ?_, ?_, ?_⟩
  · intro msg he
    subst he
    rfl
  · intro status body he hne
    subst he
    have hb : (status == 200) = false := by simpa using hne
    constructor
    · simp [fetch_single_location, hb]
    · simp [fetch_single_location, hb]
  · intro body he
    subst he
    rfl
  · intro he
    subst he
    exact ⟨rfl, rfl⟩

/-- Witness for the amended C6 at a concrete 404 response. -/
theorem fetch_classification_witness :
    (fetch_single_location locA (.response 404 Option.none)).success = false ∧
    (fetch_single_location locA (.response 404 Option.none)).error =
      some ("Status " ++ toString 404) :=
  (fetch_classification locA (.response 404 Option.none)).2.1 404 Option.none
    rfl (by decide)

/-- C7: the broadcast loop executes one cycle per cycle environment —
no cycle is skipped and the trace never ends early — every cycle
(error or not) sleeps exactly `FETCH_INTERVAL` before the next one,
the trace of `inputs ++ [inp]` extends the trace of `inputs` by
exactly one more cycle (no terminal state), and a cycle whose merge
raises yields a logged-error cycle result that still sleeps the
standard interval.  Cycles cannot overlap: the loop body is a single
sequential thread, modelled by the per-input `List.map`. -/
theorem loop_never_terminates (tm : Bool) (locs : List Location)
    (inputs : List CycleInput) (inp : CycleInput) :
    (data_fetch_loop tm locs inputs).length = inputs.length ∧
    (∀ r ∈ data_fetch_loop tm locs inputs, r.slept = FETCH_INTERVAL) ∧
    data_fetch_loop tm locs (inputs ++ [inp]) =
      data_fetch_loop tm locs inputs ++ [runCycle tm locs inp] ∧
    (∀ e, tm = false →
       process_all_responses
         (fetch_all_locations inp.completionOrder inp.outcomes) = .error e →
       runCycle tm locs inp = ⟨Option.none, true, FETCH_INTERVAL⟩) := by
  refine ⟨List.length_map _ _, ?_, ?_, ?_⟩
  · intro r hr
    rw [data_fetch_loop, List.mem_map] at hr
    obtain ⟨i, -, rfl⟩ := hr
    exact runCycle_slept tm locs i
  · rw [data_fetch_loop, data_fetch_loop, List.map_append]
    rfl
  · intro e htm herr
    subst htm
    simp [runCycle, herr]

/-- Witness for C7 at a concrete cycle whose 200-status payload makes
the merge raise. -/
theorem loop_never_terminates_witness :
    runCycle false LOCATIONS errorCycleInput =
      ⟨Option.none, true, FETCH_INTERVAL⟩ :=
  (loop_never_terminates false LOCATIONS [errorCycleInput]
    errorCycleInput).2.2.2 (.attributeError "get") rfl rfl

/-- C8 counterexample: a record with coordinates but no id field is
not dropped — `car.get("id")` returns Python `None`, `None` enters the
dedup set, and the record appears in the merge output with a `None`
id, refuting "it never appears in the output vehicle sequence". -/
theorem merge_missing_id_kept_cex :
    lookupStr [("lat", PyVal.num 5), ("lng", PyVal.num 6)] "id" = Option.none ∧
    process_all_responses noIdBatch = .ok [noIdVehicle] :=
  ⟨rfl, rfl⟩

/-- C8 (amended): a record whose id is missing is extracted with id
`None` rather than dropped — it appears in the output when its
coordinates are valid, and at most one such id-`None` vehicle per
batch survives (a second id-less record is deduplicated against
`None`) — and per-record malformation never fails the enclosing
result: the merge counters depend only on the success flags of the
batch. -/
theorem merge_missing_id_behavior (rs : List FetchResultR) (st : MergeState)
    (h : mergeRun rs = .ok st) :
    (st.success_count = (rs.filter fun r => r.success).length ∧
     st.fail_count = (rs.filter fun r => !r.success).length) ∧
    process_all_responses noIdBatch = .ok [noIdVehicle] ∧
    process_all_responses noIdTwiceBatch = .ok [noIdVehicle] :=
  ⟨mergeRun_counts rs st h, rfl, rfl⟩

/-- Witness for the amended C8 at the concrete id-less batch. -/
theorem merge_missing_id_behavior_witness :
    (((⟨[noIdVehicle], [PyVal.none], 1, 0⟩ : MergeState).success_count =
        (noIdBatch.filter fun r => r.success).length ∧
      (⟨[noIdVehicle], [PyVal.none], 1, 0⟩ : MergeState).fail_count =
        (noIdBatch.filter fun r => !r.success).length)) ∧
    process_all_responses noIdBatch = .ok [noIdVehicle] ∧
    process_all_responses noIdTwiceBatch = .ok [noIdVehicle] :=
  merge_missing_id_behavior noIdBatch ⟨[noIdVehicle], [PyVal.none], 1, 0⟩ rfl

/-- C9 counterexample: at a concrete test-mode cycle over the 14
configured locations, the emitted snapshot reports
`success_locations = []` and `failed_locations = []` although
`locations_count = 14` — the test path empties `responses`, so its
per-location accounting covers no location, unlike the real path whose
two lists partition the configured set; the snapshot is therefore
distinguishable from a real-path snapshot. -/
theorem testmode_empty_accounting_cex :
    (runCycle true LOCATIONS witnessCycleInput).emitted =
      some witnessTestSnapshot ∧
    witnessTestSnapshot.success_locations = [] ∧
    witnessTestSnapshot.failed_locations = [] ∧
    witnessTestSnapshot.locations_count = 14 ∧
    witnessTestSnapshot.success_locations.length +
      witnessTestSnapshot.failed_locations.length ≠
      witnessTestSnapshot.locations_count :=
  ⟨rfl, rfl, rfl, rfl, by decide⟩

/-- C9 (amended): the test-mode cycle emits a snapshot with the same
field structure as the real path — built by the same emit call, with
fake vehicle dicts carrying exactly the keys of real vehicle dicts —
but its success and failed location lists are always empty (the test
path substitutes `responses = []`), whereas the real path's two lists
always partition the completion order's location names. -/
theorem testmode_structural_shape (locs : List Location) (inp : CycleInput)
    (hemit : inp.emitRaises = false) :
    (runCycle true locs inp).emitted =
      some (emitPayload (generate_fake_data_multi_location locs inp.rand)
        [] locs inp.elapsed) ∧
    (∀ fv ∈ generate_fake_data_multi_location locs inp.rand,
       pyKeys fv = some vehicleKeys) ∧
    (∀ v : VehicleInfo, pyKeys v.toDict = some vehicleKeys) ∧
    (emitPayload (generate_fake_data_multi_location locs inp.rand)
       [] locs inp.elapsed).success_locations = [] ∧
    (emitPayload (generate_fake_data_multi_location locs inp.rand)
       [] locs inp.elapsed).failed_locations = [] ∧
    (∀ (outs : Location → FetchOutcome) (vs : List VehicleInfo) (q : ℚ),
       ((emitPayload (vs.map VehicleInfo.toDict)
           (fetch_all_locations inp.completionOrder outs) locs q).success_locations ++
        (emitPayload (vs.map VehicleInfo.toDict)
           (fetch_all_locations inp.completionOrder outs) locs q).failed_locations).Perm
         (inp.completionOrder.map fun l => l.name)) := by
  refine ⟨?_, ?_, ?_, rfl, rfl, ?_⟩
  · unfold runCycle
    rw [if_pos rfl, if_neg (by simp [hemit])]
  · intro fv hfv
    unfold generate_fake_data_multi_location at hfv
    rw [List.mem_flatMap] at hfv
    obtain ⟨p, -, hfv2⟩ := hfv
    rw [List.mem_map] at hfv2
    obtain ⟨qq, -, rfl⟩ := hfv2
    rfl
  · intro v
    rfl
  · intro outs vs q
    have hloc : (fetch_all_locations inp.completionOrder outs).map
        (fun r => r.location) = inp.completionOrder.map fun l => l.name := by
      unfold fetch_all_locations
      rw [List.map_map]
      simp [Function.comp, fetch_single_location_location]
    have hperm := List.filter_append_perm
      (fun r => r.success) (fetch_all_locations inp.completionOrder outs)
    have h2 : (((fetch_all_locations inp.completionOrder outs).filter
          (fun r => r.success)) ++
        ((fetch_all_locations inp.completionOrder outs).filter
          (fun r => !r.success))).map (fun r => r.location) =
        ((fetch_all_locations inp.completionOrder outs).filter
          (fun r => r.success)).map (fun r => r.location) ++
        ((fetch_all_locations inp.completionOrder outs).filter
          (fun r => !r.success)).map (fun r => r.location) :=
      List.map_append _ _ _
    show (((fetch_all_locations inp.completionOrder outs).filter
        (fun r => r.success)).map (fun r => r.location) ++
      ((fetch_all_locations inp.completionOrder outs).filter
        (fun r => !r.success)).map (fun r => r.location)).Perm
      (inp.completionOrder.map fun l => l.name)
    rw [← h2, ← hloc]
    exact hperm.map fun r => r.location

/-- Witness for the amended C9 at the concrete test-mode cycle. -/
theorem testmode_structural_shape_witness :
    (runCycle true LOCATIONS witnessCycleInput).emitted =
      some witnessTestSnapshot ∧
    witnessTestSnapshot.success_locations = [] ∧
    witnessTestSnapshot.failed_locations = [] := by
  have h := testmode_structural_shape LOCATIONS witnessCycleInput rfl
  exact ⟨h.1, h.2.2.2.1, h.2.2.2.2.1⟩

/-- C10: a successful result whose payload is falsy (Python `None` or
an empty dict — `if not data`) is counted toward the success counter,
contributes zero vehicles, and never changes what is extracted from
the other results: merging a batch with such a result inserted
anywhere equals merging the batch without it, with the success count
one higher and the failure count and vehicle list identical. -/
theorem merge_empty_success_payload (st : MergeState) (loc : String)
    (data : PyVal) (err : Option String) (xs ys : List FetchResultR)
    (hdata : truthy data = false) :
    processResponse st ⟨loc, data, true, err⟩ =
      .ok { st with success_count := st.success_count + 1 } ∧
    mergeRun (xs ++ ⟨loc, data, true, err⟩ :: ys) =
      (mergeRun (xs ++ ys)).map (addCounts 1 0) := by
  constructor
  · unfold processResponse
    rw [if_neg (by simp)]
    unfold extractVehicles
    rw [if_pos (by simp [hdata])]
    rfl
  · exact mergeRun_insert_empty xs ys loc data err hdata

/-- Witness for C10: an empty-payload success inserted in front of the
§8 scenario batch. -/
theorem merge_empty_success_payload_witness :
    processResponse ⟨[], [], 0, 0⟩ ⟨"E", PyVal.none, true, Option.none⟩ =
      .ok ⟨[], [], 1, 0⟩ ∧
    mergeRun ([] ++ (⟨"E", PyVal.none, true, Option.none⟩ : FetchResultR) :: scenarioBatch) =
      (mergeRun ([] ++ scenarioBatch)).map (addCounts 1 0) :=
  merge_empty_success_payload ⟨[], [], 0, 0⟩ "E" PyVal.none Option.none
    [] scenarioBatch rfl
